import Mathlib

/-!
Verification of the answer-page reconciliation engine
(`client/src/hooks/useAnswerPage.ts`).

The hook keeps a single cached `Question` aggregate (or `null`) and merges
socket events into it.  Each socket handler is embedded below as a pure
function from the active question identifier, the event payload and the
previous cache to the next cache; the repaint handler additionally reports
the navigate-away signal.  `setQuestion(prev => prev ? ... : prev)` is
`Option.map`; `setQuestion(x)` unconditionally replaces the cache.
-/

/-- A comment attached to a question or an answer. -/
structure Comment where
  _id : String
  text : String
  commentBy : String
  commentDateTime : String
deriving Repr, DecidableEq

/-- An answer nested inside the cached question aggregate. -/
structure Answer where
  _id : String
  text : String
  ansBy : String
  ansDateTime : String
  comments : List Comment
  locked : Bool
  pinned : Bool
  isCorrect : Bool
deriving Repr, DecidableEq

/-- The cached aggregate: a question with its nested answers, comments,
votes and view count. -/
structure Question where
  _id : String
  title : String
  text : String
  askedBy : String
  askDateTime : String
  answers : List Answer
  views : Nat
  upVotes : List String
  downVotes : List String
  comments : List Comment
  locked : Bool
  pinned : Bool
deriving Repr, DecidableEq

/-- Payload of a `voteUpdate` event: the aggregate identifier and the full
replacement up-voter / down-voter lists. -/
structure VoteData where
  qid : String
  upVotes : List String
  downVotes : List String
deriving Repr, DecidableEq

/-- Payload of a `commentUpdate` event: the updated parent, tagged with
whether it is the whole question or a single answer. -/
inductive CommentResult where
  | question (q : Question)
  | answer (a : Answer)
deriving Repr, DecidableEq

/-- `handleAnswerUpdate` from `useAnswerPage.ts` (lines 101-151): on an
identifier match, filter out the answer when `removed`, otherwise replace
in place every answer with the payload answer's identifier. -/
def handleAnswerUpdate (questionID : String) (id : String) (answer : Answer)
    (removed : Bool) (prev : Option Question) : Option Question :=
  if id = questionID then
    prev.map (fun prevQuestion =>
      { prevQuestion with
        answers :=
          if removed then
            prevQuestion.answers.filter (fun ans => ans._id ≠ answer._id)
          else
            prevQuestion.answers.map (fun ans =>
              if ans._id = answer._id then answer else ans) })
  else prev

/-- `handleCommentUpdate` from `useAnswerPage.ts` (lines 159-185): a
question-tagged result replaces the whole cache when its identifier
matches; an answer-tagged result is substituted for the answer with the
same identifier, with no question-identifier check at all. -/
def handleCommentUpdate (questionID : String) (result : CommentResult)
    (prev : Option Question) : Option Question :=
  match result with
  | .question questionResult =>
      if questionResult._id = questionID then some questionResult else prev
  | .answer answerResult =>
      prev.map (fun prevQuestion =>
        { prevQuestion with
          answers := prevQuestion.answers.map (fun a =>
            if a._id = answerResult._id then answerResult else a) })

/-- `handleViewsUpdate` from `useAnswerPage.ts` (lines 192-196): wholesale
replacement of the cache by the payload question on identifier match. -/
def handleViewsUpdate (questionID : String) (q : Question)
    (prev : Option Question) : Option Question :=
  if q._id = questionID then some q else prev

/-- `handleVoteUpdate` from `useAnswerPage.ts` (lines 203-215): on an
identifier match, replace only the `upVotes` and `downVotes` lists. -/
def handleVoteUpdate (questionID : String) (voteData : VoteData)
    (prev : Option Question) : Option Question :=
  if voteData.qid = questionID then
    prev.map (fun prevQuestion =>
      { prevQuestion with
        upVotes := voteData.upVotes
        downVotes := voteData.downVotes })
  else prev

/-- Result of a merge together with the navigate-away signal
(`navigate('/home')` in the source). -/
structure MergeEffect where
  cache : Option Question
  navigateHome : Bool
deriving Repr, DecidableEq

/-- `handleQuestionRepaint` from `useAnswerPage.ts` (lines 217-233): on an
identifier match, `removed` triggers the navigate-away signal and returns
before touching the cache; otherwise only `pinned` and `locked` are copied
onto the cached question. -/
def handleQuestionRepaint (questionID : String) (quest : Question)
    (removed : Bool) (prev : Option Question) : MergeEffect :=
  if quest._id = questionID then
    if removed then ⟨prev, true⟩
    else
      ⟨prev.map (fun prevQuestion =>
        { prevQuestion with pinned := quest.pinned, locked := quest.locked }),
       false⟩
  else ⟨prev, false⟩

/-- The five socket event kinds the hook subscribes to. -/
inductive AnswerPageEvent where
  | answerUpdate (id : String) (answer : Answer) (removed : Bool)
  | viewsUpdate (q : Question)
  | commentUpdate (result : CommentResult)
  | voteUpdate (voteData : VoteData)
  | questionUpdate (quest : Question) (removed : Bool)
deriving Repr, DecidableEq

/-- Dispatch of one inbound event to its handler.  Only the repaint
handler can raise the navigate-away signal. -/
def applyEvent (questionID : String) (prev : Option Question)
    (e : AnswerPageEvent) : MergeEffect :=
  match e with
  | .answerUpdate id answer removed =>
      ⟨handleAnswerUpdate questionID id answer removed prev, false⟩
  | .viewsUpdate q => ⟨handleViewsUpdate questionID q prev, false⟩
  | .commentUpdate result => ⟨handleCommentUpdate questionID result prev, false⟩
  | .voteUpdate voteData => ⟨handleVoteUpdate questionID voteData prev, false⟩
  | .questionUpdate quest removed =>
      handleQuestionRepaint questionID quest removed prev

/-- The identifier an event targets: the question identifier carried by
the payload, except for an answer-tagged comment event, whose payload
carries only the answer's identifier. -/
def eventTargetId : AnswerPageEvent → String
  | .answerUpdate id _ _ => id
  | .viewsUpdate q => q._id
  | .commentUpdate (.question q) => q._id
  | .commentUpdate (.answer a) => a._id
  | .voteUpdate voteData => voteData.qid
  | .questionUpdate quest _ => quest._id

/-- Target kind of a mutation-gateway add-comment call. -/
inductive CommentTarget where
  | question
  | answer
deriving Repr, DecidableEq

/-- An add-comment request issued to the mutation gateway. -/
structure AddCommentCall where
  targetId : String
  targetType : CommentTarget
  comment : Comment
deriving Repr, DecidableEq

/-- Outcome of one `handleNewComment` invocation: the gateway call issued
(if any), how the returned promise settles, and the cache afterwards. -/
structure NewCommentOutcome where
  issuedCall : Option AddCommentCall
  settled : Except String Unit
  cache : Option Question
deriving Repr

/-- `handleNewComment` from `useAnswerPage.ts` (lines 48-63): an undefined
target identifier throws inside the `try`, which the `catch` absorbs, so
no gateway call is issued and the promise resolves; a gateway rejection is
likewise absorbed.  The handler never touches the question cache. -/
def handleNewComment (prev : Option Question) (comment : Comment)
    (targetType : CommentTarget) (targetId : Option String)
    (gateway : String → CommentTarget → Comment → Except String Unit) :
    NewCommentOutcome :=
  match targetId with
  | none => ⟨none, .ok (), prev⟩
  | some t =>
      match gateway t targetType comment with
      | .ok _ => ⟨some ⟨t, targetType, comment⟩, .ok (), prev⟩
      | .error _ => ⟨some ⟨t, targetType, comment⟩, .ok (), prev⟩

/-! Sample concrete values used by witnesses and counterexamples. -/

/-- Sample answer `A1`. -/
def a1 : Answer := ⟨"A1", "first answer", "alice", "2024-01-01", [], false, false, false⟩

/-- Sample answer `A2`. -/
def a2 : Answer := ⟨"A2", "second answer", "bob", "2024-01-02", [], false, false, false⟩

/-- Sample cached question `Q1` holding answers `A1` and `A2`. -/
def q1 : Question :=
  ⟨"Q1", "sample title", "sample body", "carol", "2024-01-01",
   [a1, a2], 3, ["alice"], ["bob"], [], false, false⟩

/-! Helper lemmas about the list transforms used by the merges. -/

/-- Filtering twice with the same predicate equals filtering once. -/
lemma filter_idem {α : Type} (p : α → Bool) (l : List α) :
    (l.filter p).filter p = l.filter p := by
  simp [List.filter_filter]

/-- The in-place replacement function of the answer upsert is idempotent
pointwise. -/
lemma replaceAns_idem (answer ans : Answer) :
    (if (if ans._id = answer._id then answer else ans)._id = answer._id
       then answer
       else if ans._id = answer._id then answer else ans) =
    (if ans._id = answer._id then answer else ans) := by
  by_cases h : ans._id = answer._id
  · simp [h]
  · simp [h]

/-- Replacing by identifier leaves a list unchanged when no element
carries the identifier. -/
lemma map_replace_of_not_mem (answer : Answer) (l : List Answer)
    (h : ∀ ans ∈ l, ans._id ≠ answer._id) :
    l.map (fun ans => if ans._id = answer._id then answer else ans) = l := by
  have : l.map (fun ans => if ans._id = answer._id then answer else ans) = l.map id :=
    List.map_congr_left (fun a ha => if_neg (h a ha))
  simpa using this

/-- Removing one present identifier from a list of answers with pairwise
distinct identifiers shortens it by exactly one. -/
lemma filter_ne_length (x : String) :
    ∀ l : List Answer, (l.map (fun a => a._id)).Nodup →
      (∃ a ∈ l, a._id = x) →
      (l.filter (fun a => a._id ≠ x)).length + 1 = l.length := by
  intro l
  induction l with
  | nil => intro _ hmem; simp at hmem
  | cons a t ih =>
      intro hnodup hmem
      simp only [List.map_cons, List.nodup_cons, List.mem_map] at hnodup
      by_cases h : a._id = x
      · have hkeep : ∀ b ∈ t, (decide (b._id ≠ x)) = true := by
          intro b hb
          simp only [decide_eq_true_eq]
          intro hbx
          exact hnodup.1 ⟨b, hb, by rw [hbx, h]⟩

        rw [List.filter_cons_of_neg (by simp [h]),
          List.filter_eq_self.mpr hkeep]
        simp
      · have hmem' : ∃ b ∈ t, b._id = x := by
          rcases hmem with ⟨b, hb, hbx⟩
          rcases List.mem_cons.mp hb with rfl | hbt
          · exact absurd hbx h
          · exact ⟨b, hbt, hbx⟩
        have ht := ih hnodup.2 hmem'
        rw [List.filter_cons_of_pos (by simp [h])]
        simp only [List.length_cons]
        omega

/-- C1: for a cached aggregate and an Answer event whose target identifier
equals the active identifier, `removed = true` deletes exactly the answers
with the payload answer's identifier (order of the rest preserved), and
`removed = false` replaces position-wise every answer with the matching
identifier and leaves the sequence unchanged when the identifier is absent
(update-only, never append). -/
theorem answer_upsert_semantics (qid id : String) (answer : Answer)
    (removed : Bool) (q : Question) (hid : id = qid) :
    ∃ q', handleAnswerUpdate qid id answer removed (some q) = some q' ∧
      (removed = true →
        (q'.answers.Sublist q.answers ∧
         ∀ ans, ans ∈ q'.answers ↔ ans ∈ q.answers ∧ ans._id ≠ answer._id)) ∧
      (removed = false →
        (q'.answers.length = q.answers.length ∧
         (∀ i : Nat, q'.answers[i]? =
            (q.answers[i]?).map
              (fun ans => if ans._id = answer._id then answer else ans)) ∧
         ((∀ ans ∈ q.answers, ans._id ≠ answer._id) → q' = q))) := by
  subst hid
  cases removed with
  | true =>
      refine ⟨{ q with answers :=
          q.answers.filter (fun ans => ans._id ≠ answer._id) }, ?_, ?_, ?_⟩
      · simp [handleAnswerUpdate]
      · intro _
        exact ⟨List.filter_sublist _, by intro ans; simp [List.mem_filter]⟩
      · intro h; cases h
  | false =>
      refine ⟨{ q with answers :=
          q.answers.map (fun ans =>
            if ans._id = answer._id then answer else ans) }, ?_, ?_, ?_⟩
      · simp [handleAnswerUpdate]
      · intro h; cases h
      · intro _
        refine ⟨by simp, ?_, ?_⟩
        · intro i; simp [List.getElem?_map]
        · intro h
          have := map_replace_of_not_mem answer q.answers h
          simp only [this]

/-- Witness for `answer_upsert_semantics`: at `qid = "Q1"`, a non-removal
event carrying an updated `A1` keeps the answer count of `q1` at two. -/
theorem answer_upsert_semantics_witness :
    ∃ n, (handleAnswerUpdate "Q1" "Q1"
        { a1 with text := "edited" } false (some q1)).map
        (fun q => q.answers.length) = some n ∧ n = 2 := by
  obtain ⟨q', hq', -, hrest⟩ :=
    answer_upsert_semantics "Q1" "Q1" { a1 with text := "edited" } false q1 rfl
  obtain ⟨hlen, -, -⟩ := hrest rfl
  refine ⟨q'.answers.length, by simp [hq'], ?_⟩
  rw [hlen]
  decide

/-- Replacing by identifier twice equals replacing once, on whole lists. -/
lemma map_replace_idem (answer : Answer) (l : List Answer) :
    (l.map (fun ans => if ans._id = answer._id then answer else ans)).map
      (fun ans => if ans._id = answer._id then answer else ans) =
    l.map (fun ans => if ans._id = answer._id then answer else ans) := by
  rw [List.map_map]
  exact List.map_congr_left (fun ans _ => by simpa using replaceAns_idem answer ans)

/-- C7: on a cached aggregate whose answer identifiers are pairwise
distinct, a removal event for a present identifier shrinks the answer
sequence by exactly one, and every answer with a different identifier
survives in its original relative order. -/
theorem answer_removal_length (qid id : String) (answer : Answer)
    (q : Question)
    (hnodup : (q.answers.map (fun a => a._id)).Nodup)
    (hmem : ∃ ans ∈ q.answers, ans._id = answer._id)
    (hid : id = qid) :
    ∃ q', handleAnswerUpdate qid id answer true (some q) = some q' ∧
      q'.answers.length + 1 = q.answers.length ∧
      q'.answers.Sublist q.answers ∧
      (∀ ans ∈ q.answers, ans._id ≠ answer._id → ans ∈ q'.answers) := by
  subst hid
  refine ⟨{ q with answers :=
      q.answers.filter (fun ans => ans._id ≠ answer._id) }, ?_, ?_, ?_, ?_⟩
  · simp [handleAnswerUpdate]
  · exact filter_ne_length answer._id q.answers hnodup hmem
  · exact List.filter_sublist _
  · intro ans hans hne
    simp [List.mem_filter, hans, hne]

/-- Witness for `answer_removal_length`: removing `A1` from `q1` leaves a
single answer. -/
theorem answer_removal_length_witness :
    ∃ q', handleAnswerUpdate "Q1" "Q1" a1 true (some q1) = some q' ∧
      q'.answers.length + 1 = q1.answers.length := by
  obtain ⟨q', hq', hlen, -, -⟩ :=
    answer_removal_length "Q1" "Q1" a1 q1 (by decide) ⟨a1, by decide, rfl⟩ rfl
  exact ⟨q', hq', hlen⟩

/-- C8: the answer-upsert merge is idempotent: applying the same Answer
event twice, in either the removal or the replacement case, over any cache
value yields the same cache as applying it once. -/
theorem answer_upsert_idempotent (qid id : String) (answer : Answer)
    (removed : Bool) (prev : Option Question) :
    handleAnswerUpdate qid id answer removed
        (handleAnswerUpdate qid id answer removed prev) =
      handleAnswerUpdate qid id answer removed prev := by
  by_cases hid : id = qid
  · cases prev with
    | none => simp [handleAnswerUpdate, hid]
    | some q =>
        cases removed with
        | true =>
            simp [handleAnswerUpdate, hid, filter_idem]
        | false =>
            have step : ∀ r : Question,
                handleAnswerUpdate qid id answer false (some r) =
                  some { r with answers := r.answers.map (fun ans =>
                    if ans._id = answer._id then answer else ans) } := by
              intro r
              simp [handleAnswerUpdate, hid]
            rw [step, step]
            dsimp only
            rw [map_replace_idem]
  · simp [handleAnswerUpdate, hid]

/-- C4: a Vote event whose identifier matches the active identifier
replaces exactly the up-vote and down-vote lists with the payload's lists
and leaves every other field of the cached aggregate unchanged. -/
theorem vote_refresh_frame (qid : String) (voteData : VoteData)
    (q : Question) (hid : voteData.qid = qid) :
    ∃ q', handleVoteUpdate qid voteData (some q) = some q' ∧
      q'.upVotes = voteData.upVotes ∧ q'.downVotes = voteData.downVotes ∧
      q'._id = q._id ∧ q'.title = q.title ∧ q'.text = q.text ∧
      q'.askedBy = q.askedBy ∧ q'.askDateTime = q.askDateTime ∧
      q'.answers = q.answers ∧ q'.views = q.views ∧
      q'.comments = q.comments ∧ q'.locked = q.locked ∧
      q'.pinned = q.pinned := by
  subst hid
  refine ⟨{ q with upVotes := voteData.upVotes, downVotes := voteData.downVotes },
    ?_, rfl, rfl, rfl, rfl, rfl, rfl, rfl, rfl, rfl, rfl, rfl, rfl⟩
  simp [handleVoteUpdate]

/-- Witness for `vote_refresh_frame`: a matching vote event on `q1` swaps
in the payload's voter lists. -/
theorem vote_refresh_frame_witness :
    ∃ q', handleVoteUpdate "Q1" ⟨"Q1", ["dave"], []⟩ (some q1) = some q' ∧
      q'.upVotes = ["dave"] ∧ q'.answers = q1.answers := by
  obtain ⟨q', hq', hup, -, -, -, -, -, -, hans, -⟩ :=
    vote_refresh_frame "Q1" ⟨"Q1", ["dave"], []⟩ q1 rfl
  exact ⟨q', hq', hup, hans⟩

/-- C6 counterexample: the vote merge copies the payload lists verbatim,
so a payload in which "alice" both up-votes and down-votes leaves the two
lists overlapping after the merge — the claim is false as stated. -/
theorem vote_disjoint_counterexample :
    handleVoteUpdate "Q1" ⟨"Q1", ["alice"], ["alice"]⟩ (some q1) =
      some { q1 with upVotes := ["alice"], downVotes := ["alice"] } ∧
    "alice" ∈ ({ q1 with upVotes := ["alice"], downVotes := ["alice"] } : Question).upVotes ∧
    "alice" ∈ ({ q1 with upVotes := ["alice"], downVotes := ["alice"] } : Question).downVotes := by
  refine ⟨?_, by decide, by decide⟩
  simp [handleVoteUpdate]

/-- C6 as amended: when the payload's up-vote and down-vote lists are
themselves disjoint, the cached aggregate's lists are disjoint after a
matching vote merge (the merge copies the payload lists verbatim). -/
theorem vote_disjoint_of_payload_disjoint (qid : String)
    (voteData : VoteData) (q : Question)
    (hdisj : ∀ x ∈ voteData.upVotes, x ∉ voteData.downVotes)
    (hid : voteData.qid = qid) :
    ∃ q', handleVoteUpdate qid voteData (some q) = some q' ∧
      ∀ x ∈ q'.upVotes, x ∉ q'.downVotes := by
  subst hid
  refine ⟨{ q with upVotes := voteData.upVotes, downVotes := voteData.downVotes },
    ?_, hdisj⟩
  simp [handleVoteUpdate]

/-- Witness for `vote_disjoint_of_payload_disjoint` at a concrete disjoint
payload. -/
theorem vote_disjoint_of_payload_disjoint_witness :
    ∃ q', handleVoteUpdate "Q1" ⟨"Q1", ["dave"], ["erin"]⟩ (some q1) = some q' ∧
      ∀ x ∈ q'.upVotes, x ∉ q'.downVotes :=
  vote_disjoint_of_payload_disjoint "Q1" ⟨"Q1", ["dave"], ["erin"]⟩ q1
    (by decide) rfl

/-- C5: on a matching Repaint event, `removed = true` raises the
navigate-away signal and leaves the cache untouched; `removed = false`
overwrites only the `pinned` and `locked` fields and leaves every other
field, including the answer sequence, unchanged, with no signal. -/
theorem repaint_semantics (qid : String) (quest : Question)
    (removed : Bool) (q : Question) (hid : quest._id = qid) :
    (removed = true →
      handleQuestionRepaint qid quest removed (some q) = ⟨some q, true⟩) ∧
    (removed = false →
      ∃ q', handleQuestionRepaint qid quest removed (some q) =
          ⟨some q', false⟩ ∧
        q'.pinned = quest.pinned ∧ q'.locked = quest.locked ∧
        q'._id = q._id ∧ q'.title = q.title ∧ q'.text = q.text ∧
        q'.askedBy = q.askedBy ∧ q'.askDateTime = q.askDateTime ∧
        q'.answers = q.answers ∧ q'.views = q.views ∧
        q'.upVotes = q.upVotes ∧ q'.downVotes = q.downVotes ∧
        q'.comments = q.comments) := by
  subst hid
  constructor
  · intro h
    subst h
    simp [handleQuestionRepaint]
  · intro h
    subst h
    refine ⟨{ q with pinned := quest.pinned, locked := quest.locked },
      ?_, rfl, rfl, rfl, rfl, rfl, rfl, rfl, rfl, rfl, rfl, rfl, rfl⟩
    simp [handleQuestionRepaint]

/-- Witness for `repaint_semantics`: a non-removal repaint for `q1` with
`pinned = true` pins the cached question and keeps its answers. -/
theorem repaint_semantics_witness :
    ∃ q', handleQuestionRepaint "Q1" { q1 with pinned := true } false
        (some q1) = ⟨some q', false⟩ ∧
      q'.pinned = true ∧ q'.answers = q1.answers := by
  obtain ⟨-, hrest⟩ :=
    repaint_semantics "Q1" { q1 with pinned := true } false q1 rfl
  obtain ⟨q', hq', hp, -, -, -, -, -, -, hans, -⟩ := hrest rfl
  exact ⟨q', hq', hp, hans⟩

/-- C9: question-tagged comment merges are last-applied-wins: with two
matching question payloads, applying them in either order leaves the later
one as the whole cache. -/
theorem comment_last_applied_wins (qid : String) (v1 v2 : Question)
    (prev : Option Question) (h1 : v1._id = qid) (h2 : v2._id = qid) :
    handleCommentUpdate qid (.question v2)
        (handleCommentUpdate qid (.question v1) prev) = some v2 ∧
    handleCommentUpdate qid (.question v1)
        (handleCommentUpdate qid (.question v2) prev) = some v1 := by
  constructor
  · simp [handleCommentUpdate, h2]
  · simp [handleCommentUpdate, h1]

/-- Witness for `comment_last_applied_wins` on two concrete versions of
`q1`. -/
theorem comment_last_applied_wins_witness :
    handleCommentUpdate "Q1" (.question { q1 with views := 5 })
        (handleCommentUpdate "Q1" (.question q1) (some q1)) =
      some { q1 with views := 5 } ∧
    handleCommentUpdate "Q1" (.question q1)
        (handleCommentUpdate "Q1" (.question { q1 with views := 5 })
          (some q1)) = some q1 :=
  comment_last_applied_wins "Q1" q1 { q1 with views := 5 } (some q1) rfl rfl

/-- C2 counterexample: an answer-tagged comment event carries only the
answer's identifier, which differs from the active aggregate identifier,
yet the merge still rewrites the cached aggregate — identifier isolation
fails for this event kind as stated. -/
theorem identifier_isolation_counterexample :
    eventTargetId (.commentUpdate (.answer { a1 with text := "edited" })) ≠ "Q1" ∧
    (applyEvent "Q1" (some q1)
        (.commentUpdate (.answer { a1 with text := "edited" }))).cache ≠
      some q1 := by
  decide

/-- C2 as amended: for the answer, view, question-tagged comment, vote and
repaint kinds, a target identifier differing from the active identifier
leaves the cache unchanged with no navigate signal; for an answer-tagged
comment event the routing is instead by answer identifier, and the cache
is unchanged when no cached answer carries the payload answer's
identifier. -/
theorem identifier_isolation (qid : String) (prev : Option Question)
    (e : AnswerPageEvent)
    (h : match e with
      | .commentUpdate (.answer a) =>
          ∀ q, prev = some q → ∀ ans ∈ q.answers, ans._id ≠ a._id
      | _ => eventTargetId e ≠ qid) :
    applyEvent qid prev e = ⟨prev, false⟩ := by
  cases e with
  | answerUpdate id answer removed =>
      replace h : id ≠ qid := h
      simp [applyEvent, handleAnswerUpdate, h]
  | viewsUpdate q =>
      replace h : q._id ≠ qid := h
      simp [applyEvent, handleViewsUpdate, h]
  | commentUpdate result =>
      cases result with
      | question qr =>
          replace h : qr._id ≠ qid := h
          simp [applyEvent, handleCommentUpdate, h]
      | answer a =>
          cases prev with
          | none => simp [applyEvent, handleCommentUpdate]
          | some q =>
              have hq := map_replace_of_not_mem a q.answers (h q rfl)
              simp [applyEvent, handleCommentUpdate, hq]
  | voteUpdate voteData =>
      replace h : voteData.qid ≠ qid := h
      simp [applyEvent, handleVoteUpdate, h]
  | questionUpdate quest removed =>
      replace h : quest._id ≠ qid := h
      simp [applyEvent, handleQuestionRepaint, h]

/-- Witness for `identifier_isolation`: a vote event for `Q2` leaves the
cache seeded with `q1` untouched. -/
theorem identifier_isolation_witness :
    applyEvent "Q1" (some q1) (.voteUpdate ⟨"Q2", ["dave"], []⟩) =
      ⟨some q1, false⟩ :=
  identifier_isolation "Q1" (some q1) (.voteUpdate ⟨"Q2", ["dave"], []⟩)
    (by decide)

/-- C3 counterexample: with a null cache, a views event whose identifier
matches the active identifier seeds the cache with the payload aggregate
instead of being a no-op. -/
theorem null_cache_counterexample :
    applyEvent "Q1" none (.viewsUpdate q1) = ⟨some q1, false⟩ ∧
    some q1 ≠ (none : Option Question) := by
  decide

/-- C3 as amended: with a null cache, every event leaves the cache null
except a views event or a question-tagged comment event whose identifier
matches the active identifier, each of which replaces the null cache with
its payload aggregate. -/
theorem null_cache_event_semantics (qid : String) (e : AnswerPageEvent) :
    (applyEvent qid none e).cache =
      (match e with
        | .viewsUpdate q => if q._id = qid then some q else none
        | .commentUpdate (.question q) => if q._id = qid then some q else none
        | _ => none) := by
  cases e with
  | answerUpdate id answer removed =>
      by_cases h : id = qid <;> simp [applyEvent, handleAnswerUpdate, h]
  | viewsUpdate q =>
      by_cases h : q._id = qid <;> simp [applyEvent, handleViewsUpdate, h]
  | commentUpdate result =>
      cases result with
      | question qr =>
          by_cases h : qr._id = qid <;>
            simp [applyEvent, handleCommentUpdate, h]
      | answer a => simp [applyEvent, handleCommentUpdate]
  | voteUpdate voteData =>
      by_cases h : voteData.qid = qid <;>
        simp [applyEvent, handleVoteUpdate, h]
  | questionUpdate quest removed =>
      by_cases h : quest._id = qid
      · cases removed <;> simp [applyEvent, handleQuestionRepaint, h]
      · simp [applyEvent, handleQuestionRepaint, h]

/-- C10: `handleNewComment` always resolves (errors are absorbed by the
catch), never touches the question cache, and issues no gateway call when
the target identifier is undefined, whatever the gateway returns. -/
theorem new_comment_error_absorption (prev : Option Question)
    (comment : Comment) (targetType : CommentTarget)
    (targetId : Option String)
    (gateway : String → CommentTarget → Comment → Except String Unit) :
    (handleNewComment prev comment targetType targetId gateway).settled =
        Except.ok () ∧
    (handleNewComment prev comment targetType targetId gateway).cache = prev ∧
    (handleNewComment prev comment targetType none gateway).issuedCall =
        none := by
  refine ⟨?_, ?_, rfl⟩
  · cases targetId with
    | none => rfl
    | some t =>
        cases h : gateway t targetType comment <;>
          simp [handleNewComment, h]
  · cases targetId with
    | none => rfl
    | some t =>
        cases h : gateway t targetType comment <;>
          simp [handleNewComment, h]
